import Mathlib

/-
Verification of the configuration-resolution and container-lifecycle
orchestration engine of the `contain` CLI (src/main.rs), as a shallow
embedding in Lean 4.

External collaborators (the docker engine, the shell executing `var`
commands, the semver comparison of the `semver` crate, and the
`shellexpand` crate) are modelled as oracles or by small faithful models;
everything else is translated directly from src/main.rs.
-/

set_option maxRecDepth 8000

namespace Contain

/-- Errors of the tool, mirroring the quick_error enum at src/main.rs:12-55. -/
inductive Error where
  | dockerError (descr : String)
  | configError (descr : String)
  | configMissingField (file field : String)
  | configInvalidValue (file field reason : String)
  | pathError (descr : String)
  | commandError (cmd reason : String)
  | unsupportedParameters (descr : String)
  | noConfigFound (command : String)
  | imageBuildFailed (image dockerfile : String)
  | nameRequired (command : String)
  | containerAlreadyRunning (name : String)
  | containerStopFailed (name reason : String)
  | containerRemoveFailed (name reason : String)
  deriving DecidableEq, Repr

/-- Model of a YAML value as handled through the config crate
(config::Value): a string scalar, an array, or a table.  Non-string
scalars play no role in the claims and are represented as strings. -/
inductive Value where
  | str (s : String)
  | arr (items : List Value)
  | table (fields : List (String × Value))

/-- Models config::Value::into_string (succeeds on string scalars). -/
def Value.into_string : Value → Option String
  | .str s => some s
  | _ => none

/-- Models config::Value::into_array. -/
def Value.into_array : Value → Option (List Value)
  | .arr l => some l
  | _ => none

/-- Models config::Value::into_table. -/
def Value.into_table : Value → Option (List (String × Value))
  | .table t => some t
  | _ => none

/-- Models the Display rendering (`to_string()`) of a config::Value;
string scalars render as themselves, which is the only case the
program relies on. -/
def Value.toStr : Value → String
  | .str s => s
  | .arr _ => "[array]"
  | .table _ => "[table]"

/-- Lookup in a table (the HashMap of the config crate, modelled as an
association list with at most one binding per key). -/
def tableGet (t : List (String × Value)) (k : String) : Option Value :=
  (t.find? (fun p => p.1 == k)).map (fun p => p.2)

/-- The process environment, modelled explicitly. -/
abbrev EnvMap := List (String × String)

/-- Models std::env::var. -/
def envLookup (env : EnvMap) (k : String) : Option String :=
  (env.find? (fun p => p.1 == k)).map (fun p => p.2)

/-- Models std::env::set_var. -/
def envSet (env : EnvMap) (k v : String) : EnvMap :=
  (k, v) :: env.filter (fun p => p.1 != k)

/-- The apostrophe character (0x27). -/
def apos : Char := Char.ofNat 39

/-- The newline character. -/
def nlChar : Char := Char.ofNat 10

/-- Whitespace as recognised by str::trim (the forms that occur here). -/
def isWsChar (c : Char) : Bool :=
  c == ' ' || c == nlChar || c == Char.ofNat 9 || c == Char.ofNat 13

/-- Trim whitespace from both ends of a character list. -/
def trimChars (l : List Char) : List Char :=
  ((l.dropWhile isWsChar).reverse.dropWhile isWsChar).reverse

/-- Models str::trim. -/
def strTrim (s : String) : String := String.mk (trimChars s.data)

/-- Characters allowed in a shell variable name. -/
def isVarChar (c : Char) : Bool := c.isAlphanum || c == '_'

/-- The dollar character. -/
def dollarChar : Char := '$'

/-- The opening curly brace character (0x7b). -/
def openBrace : Char := Char.ofNat 123

/-- The closing curly brace character (0x7d). -/
def closeBrace : Char := Char.ofNat 125

/-- Scanner state for environment expansion. -/
inductive ExpSt where
  | norm
  | dollar
  | ident (acc : List Char)
  | braced (acc : List Char)

/-- Character-level scanner modelling the env expansion of the external
shellexpand crate: dollar-name and dollar-brace-name references are
replaced by the variable value; a reference to an undefined variable is
an error (none), as is an unclosed braced reference. -/
def expandLoop (env : EnvMap) : List Char → ExpSt → Option (List Char)
  | [], .norm => some []
  | [], .dollar => some [dollarChar]
  | [], .ident acc => (envLookup env (String.mk acc)).map (fun v => v.data)
  | [], .braced _ => none
  | c :: rest, .norm =>
      if c == dollarChar then expandLoop env rest .dollar
      else (expandLoop env rest .norm).map (fun out => c :: out)
  | c :: rest, .dollar =>
      if c == openBrace then expandLoop env rest (.braced [])
      else if isVarChar c then expandLoop env rest (.ident [c])
      else (expandLoop env rest .norm).map (fun out => dollarChar :: c :: out)
  | c :: rest, .ident acc =>
      if isVarChar c then expandLoop env rest (.ident (acc ++ [c]))
      else
        match envLookup env (String.mk acc) with
        | none => none
        | some v =>
          if c == dollarChar then (expandLoop env rest .dollar).map (fun out => v.data ++ out)
          else (expandLoop env rest .norm).map (fun out => v.data ++ c :: out)
  | c :: rest, .braced acc =>
      if c == closeBrace then
        match envLookup env (String.mk acc) with
        | none => none
        | some v => (expandLoop env rest .norm).map (fun out => v.data ++ out)
      else expandLoop env rest (.braced (acc ++ [c]))

/-- Models shellexpand::env over the given environment. -/
def expandEnv (env : EnvMap) (s : String) : Option String :=
  (expandLoop env s.data .norm).map String.mk

/-- Outcome of handing a command line to `sh -c`: either the shell could
not be spawned at all (Command::output() returned Err), or it ran and
produced an exit code and captured standard output. -/
inductive ShellResult where
  | spawnErr (msg : String)
  | ran (exitCode : Nat) (stdout : String)

/-- The external shell, as an oracle from command line to outcome. -/
abbrev ShellOracle := String → ShellResult

/-- The resolved configuration, mirroring struct Configuration at
src/main.rs:137-150.  Paths are modelled as lists of components
(the filesystem root is the empty list). -/
structure Configuration where
  image : String
  name : Option String
  dockerfile : String
  root_path : List String
  flags : List String
  workdir_path : String
  env_variables : List String
  build_args : List String
  extra_mounts : List String
  ports : List String
  default_shell : Option String
  deriving DecidableEq, Repr

/-- Models get_required_string (src/main.rs:152-165). -/
def get_required_string (t : List (String × Value)) (field file : String) :
    Except Error String :=
  match tableGet t field with
  | none => .error (.configMissingField file field)
  | some v =>
    match v.into_string with
    | none => .error (.configInvalidValue file field "expected a string")
    | some s => .ok s

/-- Models get_optional_string (src/main.rs:167-179). -/
def get_optional_string (t : List (String × Value)) (field file : String) :
    Except Error (Option String) :=
  match tableGet t field with
  | none => .ok none
  | some v =>
    match v.into_string with
    | none => .error (.configInvalidValue file field "expected a string")
    | some s => .ok (some s)

/-- Models get_string_array (src/main.rs:181-210); expansion uses the
process environment at the time of the call. -/
def get_string_array (env : EnvMap) (t : List (String × Value)) (field file : String) :
    Except Error (List String) :=
  match tableGet t field with
  | none => .ok []
  | some v =>
    match v.into_array with
    | none => .error (.configInvalidValue file field "expected an array")
    | some items =>
      items.mapM (fun it =>
        match it.into_string with
        | none => .error (.configInvalidValue file field "expected array of strings")
        | some s =>
          match expandEnv env s with
          | none =>
            .error (.configInvalidValue file field "environment variable expansion failed")
          | some e => (.ok e : Except Error String))

/-- Models the var-processing loop of load_config (src/main.rs:439-483):
each table item names a variable and a shell command; the command string
is env-expanded and run through the shell, and the variable is set in
the process environment to the trimmed captured stdout.  The exit code
of a spawned command is not inspected; only a spawn failure is an error.
Returns the updated environment and the list of executed command lines
in execution order. -/
def run_vars (shell : ShellOracle) (file : String) :
    EnvMap → List Value → Except Error (EnvMap × List String)
  | env, [] => .ok (env, [])
  | env, item :: rest =>
    match item.into_table with
    | none => run_vars shell file env rest
    | some obj =>
      match tableGet obj "name" with
      | none => .error (.configMissingField file "var[].name")
      | some nameV =>
        match tableGet obj "command" with
        | none => .error (.configMissingField file "var[].command")
        | some cmdV =>
          match expandEnv env cmdV.toStr with
          | none =>
            .error (.configInvalidValue file "var[].command"
              "environment variable expansion failed")
          | some cmdExp =>
            match shell cmdExp with
            | .spawnErr msg => .error (.commandError ("sh -c " ++ cmdExp) msg)
            | .ran _ out =>
              match run_vars shell file (envSet env nameV.toStr (strTrim out)) rest with
              | .error e => .error e
              | .ok (env2, trace) => .ok (env2, cmdExp :: trace)

/-- Models one mount entry of the mounts loop (src/main.rs:492-532):
type, src and dst are required (errors keyed by index), src and dst are
env-expanded, options are appended verbatim after a comma. -/
def mount_spec (file : String) (env : EnvMap) (i : Nat) (obj : List (String × Value)) :
    Except Error String :=
  match tableGet obj "type" with
  | none => .error (.configMissingField file ("mounts[" ++ toString i ++ "].type"))
  | some ty =>
    match tableGet obj "src" with
    | none => .error (.configMissingField file ("mounts[" ++ toString i ++ "].src"))
    | some src =>
      match tableGet obj "dst" with
      | none => .error (.configMissingField file ("mounts[" ++ toString i ++ "].dst"))
      | some dst =>
        match expandEnv env src.toStr with
        | none =>
          .error (.configInvalidValue file ("mounts[" ++ toString i ++ "].src")
            "environment variable expansion failed")
        | some srcE =>
          match expandEnv env dst.toStr with
          | none =>
            .error (.configInvalidValue file ("mounts[" ++ toString i ++ "].dst")
              "environment variable expansion failed")
          | some dstE =>
            let extra := match tableGet obj "options" with
              | some o => "," ++ o.toStr
              | none => ""
            .ok ("type=" ++ ty.toStr ++ ",src=" ++ srcE ++ ",dst=" ++ dstE ++ extra)

/-- Models the mounts loop over the enumerated array; non-table items
are skipped but still counted by the index. -/
def collect_mounts (file : String) (env : EnvMap) : Nat → List Value → Except Error (List String)
  | _, [] => .ok []
  | i, item :: rest =>
    match item.into_table with
    | none => collect_mounts file env (i + 1) rest
    | some obj =>
      match mount_spec file env i obj with
      | .error e => .error e
      | .ok s =>
        match collect_mounts file env (i + 1) rest with
        | .error e => .error e
        | .ok l => .ok (s :: l)

/-- Display rendering of every item of an optional array field, used for
the ports and flags loops (src/main.rs:537-555); a present but non-array
value is skipped. -/
def display_items (t : List (String × Value)) (field : String) : List String :=
  match tableGet t field with
  | some v =>
    match v.into_array with
    | some items => items.map Value.toStr
    | none => []
  | none => []

/-- Path of a directory, as the Rust code renders it (the filesystem
root is the single-character path). -/
def pathToString (p : List String) : String := "/" ++ String.intercalate "/" p

/-- Models the body of load_config once a matching image entry has been
found (src/main.rs:432-573): extract required and optional fields, run
the var declarations (updating the environment), then expand env,
build_args and mounts against the updated environment, collect ports and
flags, and read the workdir override from the environment. -/
def extract_entry (shell : ShellOracle) (env0 : EnvMap) (file : String)
    (path : List String) (entry : List (String × Value)) : Except Error Configuration := do
  let image ← get_required_string entry "image" file
  let name ← get_optional_string entry "name" file
  let dockerfile ← get_required_string entry "dockerfile" file
  let default_shell ← get_optional_string entry "default_shell" file
  let env ← (match tableGet entry "var" with
    | some v =>
      match v.into_array with
      | some items => (run_vars shell file env0 items).map (fun p => p.1)
      | none => .ok env0
    | none => (.ok env0 : Except Error EnvMap))
  let env_variables ← get_string_array env entry "env" file
  let build_args ← get_string_array env entry "build_args" file
  let extra_mounts ← (match tableGet entry "mounts" with
    | some v =>
      match v.into_array with
      | some items => collect_mounts file env 0 items
      | none => .ok []
    | none => (.ok [] : Except Error (List String)))
  let ports := display_items entry "ports"
  let flags := display_items entry "flags"
  let workdir_path := (envLookup env "WORKDIR_PATH").getD "/workdir"
  .ok { image, name, dockerfile, root_path := path, flags, workdir_path,
        env_variables, build_args, extra_mounts, ports, default_shell }

/-- Does this commands value match the requested command, literally or
via the any wildcard (src/main.rs:383-397)?  A single string is matched
directly; an array is scanned with non-string entries ignored. -/
def commands_match (v : Value) (command : String) : Bool :=
  match v with
  | .str s => s == command || s == "any"
  | .arr entries =>
    entries.any (fun e =>
      match e.into_string with
      | some s => s == command || s == "any"
      | none => false)
  | .table _ => false

/-- Models get_config_table (src/main.rs:369-402): the first entry of
the images array that is a table, has a commands field, and matches the
command wins; a missing or non-array images field yields none. -/
def get_config_table (root : List (String × Value)) (command : String) :
    Option (List (String × Value)) :=
  match (tableGet root "images").bind Value.into_array with
  | none => none
  | some nodes =>
    nodes.findSome? (fun node =>
      match node.into_table with
      | none => none
      | some t =>
        match tableGet t "commands" with
        | none => none
        | some cv => if commands_match cv command then some t else none)

/-- State of the configuration document at one directory.  The Rust code
only observes the result of config::Config::build(), which fails the
same way for a missing and for an unparseable file; the distinction is
kept here so that specification claims about malformed documents can be
stated. -/
inductive Doc where
  | absent
  | malformed
  | parsed (root : List (String × Value))

/-- A filesystem assigns a document state to every directory. -/
abbrev Filesystem := List String → Doc

/-- Models the contain_min_version gate (src/main.rs:421-430); tooLow
is the oracle for the semver comparison of the running binary version
against the declared minimum. -/
def min_version_gate (tooLow : String → Bool) (root : List (String × Value)) : Bool :=
  match (tableGet root "contain_min_version").bind Value.into_string with
  | some v => tooLow v
  | none => false

/-- Models load_config (src/main.rs:404-589).  The walk sets the
resolved-root marker variable at every visited directory, reads the
document, applies the version gate, matches the command, and either
extracts the matched entry or pops to the parent.  A build failure
(absent or malformed document alike) pops to the parent unless the
path is the filesystem root, where it becomes NoConfigFound; a parsed
document with no matching entry pops unconditionally, exactly as
PathBuf::pop is applied in the Rust code (a no-op at the root).  Fuel
bounds the recursion: a none result models non-termination of the
original recursion. -/
def load_config (fs : Filesystem) (tooLow : String → Bool) (shell : ShellOracle)
    (command : String) : Nat → EnvMap → List String → Option (Except Error Configuration)
  | 0, _, _ => none
  | fuel + 1, env, path =>
    let env1 := envSet env "CONTAIN_ROOT_PATH" (pathToString path)
    let file := pathToString path ++ "/.contain.yaml"
    match fs path with
    | .parsed root =>
      if min_version_gate tooLow root then
        some (.error (.configError (file ++ " requires a newer contain version")))
      else
        match get_config_table root command with
        | some entry => some (extract_entry shell env1 file path entry)
        | none => load_config fs tooLow shell command fuel env1 path.dropLast
    | _ =>
      if path.isEmpty then some (.error (.noConfigFound command))
      else load_config fs tooLow shell command fuel env1 path.dropLast

/-- Replace every malformed document by an absent one. -/
def scrub_malformed (fs : Filesystem) : Filesystem := fun p =>
  match fs p with
  | .malformed => .absent
  | d => d

/-- Global CLI options, mirroring struct GlobalOptions at src/main.rs:60-69. -/
structure GlobalOptions where
  interactive : Bool
  keep_container : Bool
  run_as_root : Bool
  dry_run : Bool
  skip_ports : Bool
  skip_name : Bool
  cli_env_variables : List String
  deriving DecidableEq, Repr

/-- The uid-gid user-mapping arguments, emitted unless the root flag is
requested by the CLI or by the config flags (src/main.rs:1164-1167,
1238-1241, 842-846). -/
def user_map_args (run_as_root : Bool) (flags : List String) (uidGid : String) : List String :=
  if !run_as_root && !(flags.contains "root") then ["-u", uidGid] else []

/-- The ephemeral-cleanup argument, emitted unless keeping the container
is requested by the CLI or by the config flags (src/main.rs:1169-1171). -/
def rm_args (keep : Bool) (flags : List String) : List String :=
  if !keep && !(flags.contains "k") then ["--rm"] else []

/-- Environment-variable arguments: config-declared then CLI-declared,
each trimmed (src/main.rs:1184-1192). -/
def env_args (items : List String) : List String :=
  items.flatMap (fun it => ["-e", strTrim it])

/-- The workspace bind mount (src/main.rs:1148). -/
def workspace_mount (c : Configuration) : String :=
  "type=bind,src=" ++ pathToString c.root_path ++ ",dst=" ++ c.workdir_path

/-- Container-name arguments of docker_run (src/main.rs:1156-1162). -/
def name_args (c : Configuration) (opts : GlobalOptions) : List String :=
  match c.name with
  | some n => if !opts.skip_name then ["--name", n] else []
  | none => []

/-- Interactive flag, from the CLI option or the config flags
(src/main.rs:1173-1175). -/
def interactive_args (opts : GlobalOptions) (c : Configuration) : List String :=
  if opts.interactive || c.flags.contains "i" then ["-it"] else []

/-- Privileged flag, config flags only (src/main.rs:1177-1179). -/
def privileged_args (c : Configuration) : List String :=
  if c.flags.contains "privileged" then ["--privileged"] else []

/-- Port-mapping arguments, all suppressed by skip_ports
(src/main.rs:1206-1214). -/
def port_args (opts : GlobalOptions) (c : Configuration) : List String :=
  if !opts.skip_ports then c.ports.flatMap (fun p => ["-p", p]) else []

/-- Workspace mount followed by the declared extra mounts
(src/main.rs:1194-1204). -/
def mount_args (c : Configuration) : List String :=
  ["--mount", workspace_mount c] ++ c.extra_mounts.flatMap (fun m => ["--mount", m])

/-- Models docker_run (src/main.rs:1143-1225): the ordered engine
argument list for launching a new container. -/
def docker_run (c : Configuration) (opts : GlobalOptions) (uidGid currentDir : String)
    (command : String) (args : List String) : List String :=
  ["run"] ++ name_args c opts
    ++ user_map_args opts.run_as_root c.flags uidGid
    ++ rm_args opts.keep_container c.flags
    ++ interactive_args opts c
    ++ privileged_args c
    ++ ["-w", currentDir]
    ++ env_args (c.env_variables ++ opts.cli_env_variables)
    ++ mount_args c
    ++ port_args opts c
    ++ [c.image, command]
    ++ args

/-- Models docker_exec (src/main.rs:1227-1265): the ordered engine
argument list for executing inside an existing container. -/
def docker_exec (c : Configuration) (opts : GlobalOptions) (uidGid currentDir name : String)
    (command : String) (args : List String) : List String :=
  ["exec", "-it"]
    ++ user_map_args opts.run_as_root c.flags uidGid
    ++ ["-w", currentDir]
    ++ env_args (c.env_variables ++ opts.cli_env_variables)
    ++ [name, command]
    ++ args

/-- The middle segment of docker_run_detached (src/main.rs:842-880). -/
def docker_run_detached_mid (c : Configuration) (opts : GlobalOptions) (uidGid : String) :
    List String :=
  user_map_args opts.run_as_root c.flags uidGid
    ++ ["-w", c.workdir_path]
    ++ env_args (c.env_variables ++ opts.cli_env_variables)
    ++ mount_args c
    ++ port_args opts c
    ++ privileged_args c

/-- Models docker_run_detached (src/main.rs:826-914): detached run with
the container name and a trailing idle keep-alive command. -/
def docker_run_detached (c : Configuration) (name : String) (opts : GlobalOptions)
    (uidGid : String) : List String :=
  ["run", "-d", "--name", name] ++ docker_run_detached_mid c opts uidGid
    ++ [c.image, "sleep", "infinity"]

/-- Engine commands issued by the orchestrator (only those whose order
the claims talk about). -/
inductive EngCmd where
  | imageInspect (image : String)
  | pull (image : String)
  | build (image : String)
  | psRunning (name : String)
  | psAll (name : String)
  | start (name : String)
  | stop (name : String)
  | rm (name : String)
  deriving DecidableEq, Repr

/-- The external container engine, as an oracle per operation: an error
value models the engine binary not being invocable at all, an ok value
carries the boolean success of the well-formed invocation.
container_running and container_stopped are the results the engine hands
back to container_exists and container_is_stopped for the given name. -/
structure Engine where
  image_exists : String → Except String Bool
  download_image : String → Except String Bool
  build_image : String → Except String Bool
  container_running : String → Except String Bool
  container_stopped : String → Except String Bool
  start_ok : String → Except String Bool
  stop_ok : String → Except String Bool
  rm_ok : String → Except String Bool
  run_ok : List String → Except String Bool

/-- Models the image-ensure fallback chain, written out identically in
run_command (src/main.rs:1108-1123) and container_up (src/main.rs:806-818):
skipped entirely in dry-run mode; otherwise inspect, then pull, then
build, failing with ImageBuildFailed only when all three steps report
failure.  Returns the engine commands issued, in order, and the result. -/
def ensure_image (dry : Bool) (eng : Engine) (image dockerfileFull : String) :
    List EngCmd × Except Error Unit :=
  if dry then ([], .ok ())
  else
    match eng.image_exists image with
    | .error e =>
      ([.imageInspect image], .error (.commandError ("docker image inspect " ++ image) e))
    | .ok true => ([.imageInspect image], .ok ())
    | .ok false =>
      match eng.download_image image with
      | .error e =>
        ([.imageInspect image, .pull image],
          .error (.commandError ("docker pull " ++ image) e))
      | .ok true => ([.imageInspect image, .pull image], .ok ())
      | .ok false =>
        match eng.build_image image with
        | .error e =>
          ([.imageInspect image, .pull image, .build image],
            .error (.commandError ("docker build -t " ++ image) e))
        | .ok true => ([.imageInspect image, .pull image, .build image], .ok ())
        | .ok false =>
          ([.imageInspect image, .pull image, .build image],
            .error (.imageBuildFailed image dockerfileFull))

/-- The execution path chosen by run_command after image ensuring. -/
inductive Dispatch where
  | execInto (name : String) (args : List String)
  | runNew (args : List String)
  deriving DecidableEq, Repr

/-- Models Path::strip_prefix over component lists. -/
def strip_pre : List String → List String → Option (List String)
  | [], cur => some cur
  | _ :: _, [] => none
  | r :: rs, c :: cs => if r == c then strip_pre rs cs else none

/-- Models run_command (src/main.rs:1086-1141) from a resolved
configuration on: working-directory translation, the image-ensure chain,
then the dispatch between exec-into-existing (only when the config is
named, dry-run is off, and container_exists reports the name running)
and a fresh docker run. -/
def runCommand (c : Configuration) (opts : GlobalOptions) (eng : Engine) (uidGid : String)
    (currentPath : List String) (command : String) (args : List String) :
    Except Error Dispatch :=
  match strip_pre c.root_path currentPath with
  | none => .error (.pathError "current directory is not under root path")
  | some rel =>
    let cwd := c.workdir_path ++ "/" ++ String.intercalate "/" rel
    match (ensure_image opts.dry_run eng c.image
        (pathToString c.root_path ++ "/" ++ c.dockerfile)).2 with
    | .error e => .error e
    | .ok _ =>
      match c.name with
      | some n =>
        if opts.dry_run then .ok (.runNew (docker_run c opts uidGid cwd command args))
        else
          match eng.container_running n with
          | .error e => .error (.commandError ("docker ps -f name=" ++ n) e)
          | .ok true => .ok (.execInto n (docker_exec c opts uidGid cwd n command args))
          | .ok false => .ok (.runNew (docker_run c opts uidGid cwd command args))
      | none => .ok (.runNew (docker_run c opts uidGid cwd command args))

/-- What an up invocation ended up doing. -/
inductive UpOutcome where
  | started (name : String)
  | launched (args : List String)
  | dryLaunched (args : List String)
  deriving DecidableEq, Repr

/-- Models container_up (src/main.rs:782-824) from a resolved
configuration on: name requirement, passthrough refusal, the
already-running and stopped checks (both skipped in dry-run mode), the
image-ensure chain, and the detached launch (only printed in dry-run
mode). -/
def container_up (c : Configuration) (opts : GlobalOptions) (inside : Bool) (eng : Engine)
    (uidGid : String) : Except Error UpOutcome :=
  match c.name with
  | none => .error (.nameRequired "up")
  | some name =>
    if inside then
      .error (.unsupportedParameters "contain up cannot run inside a container")
    else if opts.dry_run then
      .ok (.dryLaunched (docker_run_detached c name opts uidGid))
    else
      match eng.container_running name with
      | .error e => .error (.commandError ("docker ps -f name=" ++ name) e)
      | .ok true => .error (.containerAlreadyRunning name)
      | .ok false =>
        match eng.container_stopped name with
        | .error e => .error (.commandError ("docker ps -a -f name=" ++ name) e)
        | .ok true =>
          match eng.start_ok name with
          | .error e => .error (.commandError ("docker start " ++ name) e)
          | .ok true => .ok (.started name)
          | .ok false => .error (.dockerError ("Failed to start container " ++ name))
        | .ok false =>
          match (ensure_image false eng c.image
              (pathToString c.root_path ++ "/" ++ c.dockerfile)).2 with
          | .error e => .error e
          | .ok _ =>
            let dargs := docker_run_detached c name opts uidGid
            match eng.run_ok dargs with
            | .error e => .error (.commandError "docker run" e)
            | .ok true => .ok (.launched dargs)
            | .ok false => .error (.dockerError ("Failed to start container " ++ name))

/-- What a down invocation ended up doing. -/
inductive DownOutcome where
  | noContainer
  | removed (wasRunning : Bool)
  | dryPrinted
  deriving DecidableEq, Repr

/-- Models container_down (src/main.rs:944-1023) from a resolved
configuration on: name requirement, passthrough refusal; in dry-run mode
the existence checks are skipped and the stop and rm invocations are
printed without executing; otherwise a running container is stopped and
removed, a stopped one removed without a stop, and an unknown one is
reported informationally with success.  Returns the engine commands
issued, in order, and the result. -/
def container_down (c : Configuration) (opts : GlobalOptions) (inside : Bool) (eng : Engine) :
    List EngCmd × Except Error DownOutcome :=
  match c.name with
  | none => ([], .error (.nameRequired "down"))
  | some name =>
    if inside then
      ([], .error (.unsupportedParameters "contain down cannot run inside a container"))
    else if opts.dry_run then
      ([], .ok .dryPrinted)
    else
      match eng.container_running name with
      | .error e =>
        ([.psRunning name], .error (.commandError ("docker ps -f name=" ++ name) e))
      | .ok true =>
        match eng.stop_ok name with
        | .error e => ([.psRunning name, .stop name], .error (.containerStopFailed name e))
        | .ok false =>
          ([.psRunning name, .stop name],
            .error (.containerStopFailed name "docker stop returned non-zero exit code"))
        | .ok true =>
          match eng.rm_ok name with
          | .error e =>
            ([.psRunning name, .stop name, .rm name],
              .error (.containerRemoveFailed name e))
          | .ok false =>
            ([.psRunning name, .stop name, .rm name],
              .error (.containerRemoveFailed name "docker rm returned non-zero exit code"))
          | .ok true => ([.psRunning name, .stop name, .rm name], .ok (.removed true))
      | .ok false =>
        match eng.container_stopped name with
        | .error e =>
          ([.psRunning name, .psAll name],
            .error (.commandError ("docker ps -a -f name=" ++ name) e))
        | .ok false => ([.psRunning name, .psAll name], .ok .noContainer)
        | .ok true =>
          match eng.rm_ok name with
          | .error e =>
            ([.psRunning name, .psAll name, .rm name],
              .error (.containerRemoveFailed name e))
          | .ok false =>
            ([.psRunning name, .psAll name, .rm name],
              .error (.containerRemoveFailed name "docker rm returned non-zero exit code"))
          | .ok true => ([.psRunning name, .psAll name, .rm name], .ok (.removed false))

/-- Is the first character list an initial segment of the second? -/
def list_is_pre : List Char → List Char → Bool
  | [], _ => true
  | _ :: _, [] => false
  | p :: ps, c :: cs => p == c && list_is_pre ps cs

/-- Substring containment on character lists. -/
def contains_sub : List Char → List Char → Bool
  | [], pat => list_is_pre pat []
  | h :: t, pat => list_is_pre pat (h :: t) || contains_sub t pat

/-- One output line of docker ps with the literal-quote Names format
used by container_exists: an apostrophe-wrapped name and a newline. -/
def ps_line (n : String) : List Char := apos :: n.data ++ [apos, nlChar]

/-- Models container_exists (src/main.rs:621-641) against the list of
currently running container names.  The docker ps name filter is
modelled by its documented semantics: an unanchored match, i.e. every
running container whose name contains the queried name as a substring is
listed.  The Rust code then trims the whole output, strips apostrophes,
and compares the result to the queried name. -/
def container_exists (running : List String) (name : String) : Bool :=
  let filtered := running.filter (fun c => contains_sub c.data name.data)
  let raw : List Char := (filtered.map ps_line).flatten
  let out := (trimChars raw).filter (fun ch => ch != apos)
  out == name.data

/-- Reassign the exit code of every successfully spawned shell command,
leaving spawn failures and captured output untouched. -/
def shell_with_code (sh : ShellOracle) (code : Nat) : ShellOracle := fun s =>
  match sh s with
  | .ran _ out => .ran code out
  | e => e

/-- A var declaration table with the given variable name and command. -/
def mk_var (n cmd : String) : Value :=
  .table [("name", .str n), ("command", .str cmd)]

/-- Is the dispatch result an exec into an existing container? -/
def is_exec_dispatch : Except Error Dispatch → Bool
  | .ok (.execInto _ _) => true
  | _ => false

/-- A filesystem with a malformed document in the start directory and a
valid matching document at the filesystem root. -/
def fs_c1 : Filesystem := fun p =>
  if p == ["a"] then .malformed
  else if p == ([] : List String) then
    .parsed [("images", .arr [.table
      [("commands", .str "any"), ("image", .str "busybox"), ("dockerfile", .str "Dockerfile")]])]
  else .absent

/-- The configuration resolved from the root document of fs_c1. -/
def conf_c1 : Configuration :=
  { image := "busybox", name := none, dockerfile := "Dockerfile",
    root_path := [], flags := [], workdir_path := "/workdir", env_variables := [],
    build_args := [], extra_mounts := [], ports := [], default_shell := none }

/-- A version oracle under which no minimum-version gate fires. -/
def no_low : String → Bool := fun _ => false

/-- A shell whose every command succeeds with empty output. -/
def shell_silent : ShellOracle := fun _ => .ran 0 ""

/-- A filesystem whose only document sits at the filesystem root, parses,
and matches no command (its single entry is for the command other). -/
def fs_c2 : Filesystem := fun p =>
  if p == ([] : List String) then
    .parsed [("images", .arr [.table
      [("commands", .str "other"), ("image", .str "img"), ("dockerfile", .str "Dockerfile")]])]
  else .absent

/-- A shell whose every command runs, exits with code 1, and prints out. -/
def sh_fail1 : ShellOracle := fun _ => .ran 1 "out"

/-- A shell that can never be spawned. -/
def sh_err : ShellOracle := fun _ => .spawnErr "spawn failed"

/-- A resolved configuration named web, rooted one level below the
filesystem root. -/
def cfg_web : Configuration :=
  { image := "img", name := some "web", dockerfile := "Dockerfile",
    root_path := ["h"], flags := [], workdir_path := "/workdir",
    env_variables := [], build_args := [], extra_mounts := [], ports := [],
    default_shell := none }

/-- All global options off. -/
def opts_none : GlobalOptions :=
  { interactive := false, keep_container := false, run_as_root := false,
    dry_run := false, skip_ports := false, skip_name := false, cli_env_variables := [] }

/-- All global options off except dry-run. -/
def opts_dry : GlobalOptions := { opts_none with dry_run := true }

/-- An engine on which the image already exists, nothing is running or
stopped, and every state-changing operation succeeds. -/
def eng_base : Engine :=
  { image_exists := fun _ => .ok true, download_image := fun _ => .ok false,
    build_image := fun _ => .ok false, container_running := fun _ => .ok false,
    container_stopped := fun _ => .ok false, start_ok := fun _ => .ok true,
    stop_ok := fun _ => .ok true, rm_ok := fun _ => .ok true,
    run_ok := fun _ => .ok true }

/-- Like eng_base, but a container with any queried name is running. -/
def eng_running : Engine := { eng_base with container_running := fun _ => .ok true }

/-- C1 (amended): resolution cannot distinguish a malformed configuration
document from an absent one — it behaves identically on a filesystem in
which every malformed document is replaced by an absent one, so a parse
failure continues the walk to the parent instead of halting with a
ConfigError. -/
theorem claim1_malformed_as_absent (fs : Filesystem) (tooLow : String → Bool)
    (shell : ShellOracle) (command : String) :
    ∀ (fuel : Nat) (env : EnvMap) (path : List String),
    load_config fs tooLow shell command fuel env path
      = load_config (scrub_malformed fs) tooLow shell command fuel env path := by
  intro fuel
  induction fuel with
  | zero => intro env path; rfl
  | succ n ih =>
    intro env path
    simp only [load_config, scrub_malformed]
    cases h : fs path with
    | parsed root =>
      cases hg : min_version_gate tooLow root with
      | true => simp [hg]
      | false =>
        simp only [hg, Bool.false_eq_true, if_false]
        cases hq : get_config_table root command with
        | some entry => simp [hq]
        | none => simp only [hq]; exact ih _ _
    | malformed =>
      cases path with
      | nil => rfl
      | cons a l => exact ih _ _
    | absent =>
      cases path with
      | nil => rfl
      | cons a l => exact ih _ _

/-- C1 counterexample: the start directory holds a malformed document and
the filesystem root a valid matching one; resolution does not halt with a
ConfigError at the malformed directory but walks on and returns the root
configuration. -/
theorem claim1_counterexample :
    fs_c1 ["a"] = Doc.malformed ∧
    load_config fs_c1 no_low shell_silent "ls" 3 [] ["a"] = some (.ok conf_c1) :=
  ⟨rfl, by rfl⟩

/-- C2: when the filesystem root itself holds a parseable document with no
entry matching the command, load_config pops the already-root path (a
no-op) and recurses with identical arguments, so it never produces any
result — in particular never NoConfigFound: for every fuel bound the
model is still out of fuel. -/
theorem claim2_root_walk_diverges :
    ∀ (fuel : Nat) (env : EnvMap),
    load_config fs_c2 no_low shell_silent "ls" fuel env [] = none := by
  intro fuel
  induction fuel with
  | zero => intro env; rfl
  | succ n ih =>
    intro env
    simp only [load_config, fs_c2, min_version_gate, get_config_table]
    exact ih _

/-- C3: the image-ensure fallback chain is skipped entirely in dry-run
mode; otherwise it issues inspect, then pull only when the image does not
exist, then build only when the pull also failed, and it results in
ImageBuildFailed exactly when all three steps report failure. -/
theorem claim3_image_fallback_chain (eng : Engine) (img df : String) :
    ensure_image true eng img df = ([], .ok ()) ∧
    ((ensure_image false eng img df).2 = .error (.imageBuildFailed img df) ↔
      (eng.image_exists img = .ok false ∧ eng.download_image img = .ok false ∧
        eng.build_image img = .ok false)) ∧
    ((ensure_image false eng img df).1 = [.imageInspect img] ∨
      (ensure_image false eng img df).1 = [.imageInspect img, .pull img] ∨
      (ensure_image false eng img df).1 = [.imageInspect img, .pull img, .build img]) ∧
    (EngCmd.pull img ∈ (ensure_image false eng img df).1 ↔
      eng.image_exists img = .ok false) ∧
    (EngCmd.build img ∈ (ensure_image false eng img df).1 ↔
      (eng.image_exists img = .ok false ∧ eng.download_image img = .ok false)) := by
  refine ⟨rfl, ?_⟩
  cases h1 : eng.image_exists img with
  | error e => simp [ensure_image, h1]
  | ok b =>
    cases b with
    | true => simp [ensure_image, h1]
    | false =>
      cases h2 : eng.download_image img with
      | error e => simp [ensure_image, h1, h2]
      | ok b2 =>
        cases b2 with
        | true => simp [ensure_image, h1, h2]
        | false =>
          cases h3 : eng.build_image img with
          | error e => simp [ensure_image, h1, h2, h3]
          | ok b3 => cases b3 <;> simp [ensure_image, h1, h2, h3]

/-- C4 (amended): with dry-run off, a run or shell invocation outside
passthrough mode execs into the existing container exactly when the
resolved configuration is named and the container-exists query reports
that name running, and otherwise launches a new container whose
ephemeral-cleanup argument is present exactly when neither the CLI keep
flag nor the config k flag is set.  In dry-run mode the existence query
is skipped and the run path is always chosen. -/
theorem claim4_run_dispatch (c : Configuration) (opts : GlobalOptions) (eng : Engine)
    (u : String) (cp rel : List String) (cmd : String) (args : List String)
    (hdry : opts.dry_run = false)
    (hstrip : strip_pre c.root_path cp = some rel)
    (himg : eng.image_exists c.image = .ok true) :
    (∀ n, c.name = some n → eng.container_running n = .ok true →
      runCommand c opts eng u cp cmd args
        = .ok (.execInto n (docker_exec c opts u
            (c.workdir_path ++ "/" ++ String.intercalate "/" rel) n cmd args))) ∧
    (∀ n, c.name = some n → eng.container_running n = .ok false →
      runCommand c opts eng u cp cmd args
        = .ok (.runNew (docker_run c opts u
            (c.workdir_path ++ "/" ++ String.intercalate "/" rel) cmd args))) ∧
    (c.name = none →
      runCommand c opts eng u cp cmd args
        = .ok (.runNew (docker_run c opts u
            (c.workdir_path ++ "/" ++ String.intercalate "/" rel) cmd args))) ∧
    (rm_args opts.keep_container c.flags
        = (if opts.keep_container || c.flags.contains "k" then [] else ["--rm"])) := by
  have hens : (ensure_image false eng c.image
      (pathToString c.root_path ++ "/" ++ c.dockerfile)).2 = .ok () := by
    simp [ensure_image, himg]
  refine ⟨?_, ?_, ?_, ?_⟩
  · intro n hn hr
    simp [runCommand, hstrip, hdry, hens, hn, hr]
  · intro n hn hr
    simp [runCommand, hstrip, hdry, hens, hn, hr]
  · intro hn
    simp [runCommand, hstrip, hdry, hens, hn]
  · cases hk : opts.keep_container <;> cases hc : c.flags.contains "k" <;>
      simp only [rm_args] <;> rw [hc] <;> decide

/-- C4 witness: a named configuration whose container is reported running
is exec'ed into. -/
theorem claim4_witness :
    runCommand cfg_web opts_none eng_running "u" ["h"] "ls" []
      = .ok (.execInto "web" (docker_exec cfg_web opts_none "u"
          (cfg_web.workdir_path ++ "/" ++ String.intercalate "/" []) "web" "ls" [])) :=
  (claim4_run_dispatch cfg_web opts_none eng_running "u" ["h"] [] "ls" []
    rfl rfl rfl).1 "web" rfl rfl

/-- C4 counterexample: under dry-run, the configuration is named and the
engine reports that container running, yet the invocation does not exec
into it (the run path is chosen). -/
theorem claim4_counterexample :
    cfg_web.name = some "web" ∧
    eng_running.container_running "web" = .ok true ∧
    is_exec_dispatch (runCommand cfg_web opts_dry eng_running "u" ["h"] "ls" []) = false :=
  ⟨rfl, rfl, by rfl⟩

/-- C5 (amended): outside a container and with dry-run off, up fails with
NameRequired when the resolved configuration has no name, fails with
ContainerAlreadyRunning when the container-exists query reports the name
running, issues a start (not a fresh run) when the name exists stopped,
and otherwise launches the container detached with a trailing inert
sleep-infinity command.  In dry-run mode the running and stopped checks
are skipped and the detached invocation is only printed. -/
theorem claim5_up_lifecycle (c : Configuration) (opts : GlobalOptions) (eng : Engine)
    (u : String) (hdry : opts.dry_run = false) :
    (c.name = none → container_up c opts false eng u = .error (.nameRequired "up")) ∧
    (∀ n, c.name = some n → eng.container_running n = .ok true →
      container_up c opts false eng u = .error (.containerAlreadyRunning n)) ∧
    (∀ n, c.name = some n → eng.container_running n = .ok false →
      eng.container_stopped n = .ok true → eng.start_ok n = .ok true →
      container_up c opts false eng u = .ok (.started n)) ∧
    (∀ n, c.name = some n → eng.container_running n = .ok false →
      eng.container_stopped n = .ok false → eng.image_exists c.image = .ok true →
      eng.run_ok (docker_run_detached c n opts u) = .ok true →
      container_up c opts false eng u = .ok (.launched (docker_run_detached c n opts u))) ∧
    (∀ n, docker_run_detached c n opts u
      = ["run", "-d", "--name", n] ++ docker_run_detached_mid c opts u
          ++ [c.image, "sleep", "infinity"]) := by
  refine ⟨?_, ?_, ?_, ?_, fun n => rfl⟩
  · intro hn
    simp [container_up, hn]
  · intro n hn hr
    simp [container_up, hn, hdry, hr]
  · intro n hn hr hs hst
    simp [container_up, hn, hdry, hr, hs, hst]
  · intro n hn hr hs himg hrun
    have hens : (ensure_image false eng c.image
        (pathToString c.root_path ++ "/" ++ c.dockerfile)).2 = .ok () := by
      simp [ensure_image, himg]
    simp [container_up, hn, hdry, hr, hs, hens, hrun]

/-- C5 witness: with an already-running container of the configured name,
up fails with ContainerAlreadyRunning. -/
theorem claim5_witness :
    container_up cfg_web opts_none false eng_running "u"
      = .error (.containerAlreadyRunning "web") :=
  (claim5_up_lifecycle cfg_web opts_none eng_running "u" rfl).2.1 "web" rfl rfl

/-- C5 counterexample: under dry-run, the engine reports the configured
name running yet up succeeds (the detached invocation is only printed)
instead of failing with ContainerAlreadyRunning. -/
theorem claim5_counterexample :
    eng_running.container_running "web" = .ok true ∧
    container_up cfg_web opts_dry false eng_running "u"
      = .ok (.dryLaunched (docker_run_detached cfg_web "web" opts_dry "u")) :=
  ⟨rfl, by rfl⟩

/-- C6 (amended): outside a container and with dry-run off, down on a
named configuration stops and then removes a running container, removes a
stopped one without issuing a stop, and reports an unknown one
informationally with success; in dry-run mode the existence checks are
skipped, no engine command is issued, and the stop and rm invocations are
only printed. -/
theorem claim6_down_lifecycle (c : Configuration) (opts : GlobalOptions) (eng : Engine)
    (hdry : opts.dry_run = false) :
    (∀ n, c.name = some n → eng.container_running n = .ok true →
      eng.stop_ok n = .ok true → eng.rm_ok n = .ok true →
      container_down c opts false eng
        = ([.psRunning n, .stop n, .rm n], .ok (.removed true))) ∧
    (∀ n, c.name = some n → eng.container_running n = .ok false →
      eng.container_stopped n = .ok true → eng.rm_ok n = .ok true →
      container_down c opts false eng
        = ([.psRunning n, .psAll n, .rm n], .ok (.removed false))) ∧
    (∀ n, c.name = some n → eng.container_running n = .ok false →
      eng.container_stopped n = .ok false →
      container_down c opts false eng = ([.psRunning n, .psAll n], .ok .noContainer)) := by
  refine ⟨?_, ?_, ?_⟩
  · intro n hn hr hst hrm
    simp [container_down, hn, hdry, hr, hst, hrm]
  · intro n hn hr hs hrm
    simp [container_down, hn, hdry, hr, hs, hrm]
  · intro n hn hr hs
    simp [container_down, hn, hdry, hr, hs]

/-- C6 witness: down on a name with no known container reports it
informationally and returns success after the two existence queries. -/
theorem claim6_witness :
    container_down cfg_web opts_none false eng_base
      = ([.psRunning "web", .psAll "web"], .ok .noContainer) :=
  (claim6_down_lifecycle cfg_web opts_none eng_base rfl).2.2 "web" rfl rfl rfl

/-- C6 counterexample: under dry-run, the engine reports the container
running, yet down issues no stop and no rm (the trace is empty) and
returns the printed-only outcome. -/
theorem claim6_counterexample :
    eng_running.container_running "web" = .ok true ∧
    container_down cfg_web opts_dry false eng_running = ([], .ok .dryPrinted) :=
  ⟨rfl, by rfl⟩

/-- Variable resolution never inspects the exit code of a spawned
command: reassigning every exit code leaves the result unchanged. -/
theorem run_vars_exit_code_agnostic (sh : ShellOracle) (file : String) (c1 c2 : Nat) :
    ∀ (vars : List Value) (env : EnvMap),
    run_vars (shell_with_code sh c1) file env vars
      = run_vars (shell_with_code sh c2) file env vars := by
  intro vars
  induction vars with
  | nil => intro env; rfl
  | cons item rest ih =>
    intro env
    cases h1 : item.into_table with
    | none =>
      simp only [run_vars, h1]
      exact ih env
    | some obj =>
      simp only [run_vars, h1]
      cases h2 : tableGet obj "name" with
      | none => rfl
      | some nameV =>
        dsimp only
        cases h3 : tableGet obj "command" with
        | none => rfl
        | some cmdV =>
          dsimp only
          cases h4 : expandEnv env cmdV.toStr with
          | none => rfl
          | some cmdExp =>
            dsimp only [shell_with_code]
            cases h5 : sh cmdExp with
            | spawnErr m => rfl
            | ran k out =>
              dsimp only
              rw [ih]

/-- C7 (amended): variable commands execute synchronously in declaration
order, each variable is set in the environment to the trimmed standard
output of its command before the remaining declarations run, and a
command that cannot be spawned aborts resolution with a CommandError;
however the exit status of a spawned command is ignored — it does not
abort resolution, and the trimmed stdout is used regardless. -/
theorem claim7_var_commands (sh : ShellOracle) (file : String) (env : EnvMap)
    (vars rest : List Value) (c1 c2 : Nat) (n cmd : String) :
    (run_vars (shell_with_code sh c1) file env vars
       = run_vars (shell_with_code sh c2) file env vars) ∧
    (∀ ce msg, expandEnv env cmd = some ce → sh ce = .spawnErr msg →
       run_vars sh file env (mk_var n cmd :: rest)
         = .error (.commandError ("sh -c " ++ ce) msg)) ∧
    (∀ ce code out, expandEnv env cmd = some ce → sh ce = .ran code out →
       run_vars sh file env (mk_var n cmd :: rest)
         = (run_vars sh file (envSet env n (strTrim out)) rest).map
             (fun p => (p.1, ce :: p.2))) := by
  have hname : tableGet [("name", Value.str n), ("command", Value.str cmd)] "name"
      = some (.str n) := rfl
  have hcmd : tableGet [("name", Value.str n), ("command", Value.str cmd)] "command"
      = some (.str cmd) := rfl
  refine ⟨run_vars_exit_code_agnostic sh file c1 c2 vars env, ?_, ?_⟩
  · intro ce msg hex hsh
    simp only [run_vars, mk_var, Value.into_table, hname, hcmd, Value.toStr, hex, hsh]
  · intro ce code out hex hsh
    simp only [run_vars, mk_var, Value.into_table, hname, hcmd, Value.toStr, hex, hsh]
    cases hrec : run_vars sh file (envSet env n (strTrim out)) rest with
    | error e => simp [Except.map]
    | ok p => simp [Except.map]

/-- C7 witness: a var declaration whose shell cannot be spawned aborts
resolution with a CommandError naming the expanded command. -/
theorem claim7_witness :
    run_vars sh_err "f" [] [mk_var "V" "cmd1"]
      = .error (.commandError ("sh -c " ++ "cmd1") "spawn failed") :=
  (claim7_var_commands sh_err "f" [] [] [] 0 0 "V" "cmd1").2.1 "cmd1" "spawn failed" rfl rfl

/-- C7 counterexample: a variable command that runs but exits with code 1
does not abort resolution with a CommandError; its trimmed stdout is
still stored in the environment. -/
theorem claim7_counterexample :
    sh_fail1 "boom" = .ran 1 "out" ∧
    run_vars sh_fail1 "f" [] [mk_var "V" "boom"] = .ok ([("V", "out")], ["boom"]) :=
  ⟨rfl, by rfl⟩

/-- C8: container_exists is not an exact-name test against the running
containers: the name foo is recognised when it runs alone, but as soon as
another running container name contains foo as a substring the filtered
listing has several lines and the comparison fails, so a running foo is
reported absent. -/
theorem claim8_name_matching :
    container_exists ["foo"] "foo" = true ∧
    container_exists ["foobar"] "foo" = false ∧
    container_exists ["foo", "foobar"] "foo" = false :=
  ⟨by decide, by decide, by decide⟩

/-- C9: the user-mapping argument pair is suppressed whenever the CLI
root option or the config root flag is present, each regardless of the
other, in docker_run, docker_exec and docker_run_detached alike (they
share user_map_args at the same position); the CLI keep option and the
config k flag are equivalent and idempotent, and the ephemeral-cleanup
argument is suppressed exactly when at least one of them is present. -/
theorem claim9_root_and_keep_flags (c : Configuration) (opts : GlobalOptions)
    (u w nm cmd : String) (args : List String) :
    (docker_run c opts u w cmd args
       = ["run"] ++ name_args c opts ++ user_map_args opts.run_as_root c.flags u
         ++ rm_args opts.keep_container c.flags ++ interactive_args opts c
         ++ privileged_args c ++ ["-w", w]
         ++ env_args (c.env_variables ++ opts.cli_env_variables)
         ++ mount_args c ++ port_args opts c ++ [c.image, cmd] ++ args) ∧
    (docker_exec c opts u w nm cmd args
       = ["exec", "-it"] ++ user_map_args opts.run_as_root c.flags u ++ ["-w", w]
         ++ env_args (c.env_variables ++ opts.cli_env_variables) ++ [nm, cmd] ++ args) ∧
    (docker_run_detached c nm opts u
       = ["run", "-d", "--name", nm] ++ docker_run_detached_mid c opts u
         ++ [c.image, "sleep", "infinity"]) ∧
    (user_map_args true c.flags u = []) ∧
    (user_map_args opts.run_as_root ("root" :: c.flags) u = []) ∧
    (user_map_args opts.run_as_root c.flags u = []
       ↔ (opts.run_as_root || c.flags.contains "root") = true) ∧
    (rm_args true c.flags = []) ∧
    (rm_args opts.keep_container ("k" :: c.flags) = []) ∧
    (rm_args opts.keep_container c.flags = []
       ↔ (opts.keep_container || c.flags.contains "k") = true) ∧
    (docker_run c { opts with keep_container := true } u w cmd args
       = docker_run { c with flags := "k" :: c.flags } opts u w cmd args) ∧
    (docker_run { c with flags := "k" :: c.flags } { opts with keep_container := true }
        u w cmd args
       = docker_run c { opts with keep_container := true } u w cmd args) ∧
    (docker_run { c with flags := "root" :: c.flags } { opts with run_as_root := true }
        u w cmd args
       = docker_run c { opts with run_as_root := true } u w cmd args) := by
  refine ⟨rfl, rfl, rfl, by simp [user_map_args], by simp [user_map_args], ?_,
    by simp [rm_args], by simp [rm_args], ?_, ?_, ?_, ?_⟩
  · cases hr : opts.run_as_root <;> cases hc : c.flags.contains "root" <;>
      simp only [user_map_args] <;> rw [hc] <;> simp
  · cases hk : opts.keep_container <;> cases hc : c.flags.contains "k" <;>
      simp only [rm_args] <;> rw [hc] <;> simp
  · simp [docker_run, name_args, user_map_args, rm_args, interactive_args,
      privileged_args, env_args, mount_args, port_args, workspace_mount]
  · simp [docker_run, name_args, user_map_args, rm_args, interactive_args,
      privileged_args, env_args, mount_args, port_args, workspace_mount]
  · simp [docker_run, name_args, user_map_args, rm_args, interactive_args,
      privileged_args, env_args, mount_args, port_args, workspace_mount]

/-- C10: the argument list assembled for exec-ing into an existing
container always begins with the exec verb followed by the
interactive-tty flag, for every option set and configuration, even when
neither the CLI interactive option nor the config i flag is present. -/
theorem claim10_exec_always_interactive (c : Configuration) (opts : GlobalOptions)
    (u w nm cmd : String) (args : List String) :
    (docker_exec c opts u w nm cmd args).take 2 = ["exec", "-it"] ∧
    "-it" ∈ docker_exec c opts u w nm cmd args := by
  constructor
  · rfl
  · exact List.mem_cons_of_mem _ (List.mem_cons_self _ _)

end Contain
